import Mathlib

set_option maxRecDepth 8192

/-!
Verification development for the vehicle-telemetry emulator (emulator-node).

The development shallowly embeds the trip-simulation engine:

* MotionCalculator (src/unnamed/part_003): pure distance / speed / heading
  derivations over geographic points, floored and clamped to fixed bands.
* GpsDataGenerator (src/unnamed/part_002): the stateful track interpolator,
  a cursor over an ordered waypoint list.
* EmulatorInstance (src/src/EmulatorInstance.ts): the per-vehicle trip
  controller driving two periodic producers.
* App.initializeEmulators (second chunk of src/src/domain/vo/Gps.ts): the
  registry that builds the single controller.

Modelling conventions: JavaScript numbers that hold geographic coordinates
and trigonometric intermediates are modelled as real numbers; timestamps
(Date values) as integers of epoch milliseconds; values produced by
Math.floor / Math.round / the clamping pipelines as integers.  Math.random
and the wall clock are oracles passed explicitly to each transition.
Network calls are modelled by outcome oracles (the promise resolves or
rejects); the concrete ServerApiClient resolves in both cases because it
catches its own transport errors.
-/

/-- Geographic point, mirroring the Gps value object
(src/src/domain/vo/Gps.ts, first chunk). -/
structure Gps where
  latitude : ℝ
  longitude : ℝ

/-- Geographic point with capture time, mirroring GpsWithTime
(src/unnamed/part_004).  The Date field intervalAt is epoch milliseconds. -/
structure GpsWithTime where
  latitude : ℝ
  longitude : ℝ
  intervalAt : ℤ

/-- Position sample DTO produced by the interpolator.  Modelled from the
constructor calls in src/unnamed/part_002 (new GpsInformation(mdn, lat, lon,
speed, direction, totalDistance, timestamp)) and the field reads in
src/src/api/ServerApiClient.ts (lat, lon, speed, direction, totalDistance,
intervalAt); this matches the Position Sample record of the specification. -/
structure GpsInformation where
  mdn : String
  lat : ℝ
  lon : ℝ
  speed : ℤ
  direction : ℤ
  totalDistance : ℤ
  intervalAt : ℤ

/-- One waypoint of the parsed track, mirroring GpxTrackPoint
(src/unnamed/part_002, GpxParser chunk).  Optional time is epoch ms. -/
structure GpxTrackPoint where
  lat : ℝ
  lon : ℝ
  ele : Option ℝ := none
  time : Option ℤ := none

instance : Inhabited GpxTrackPoint := ⟨⟨0, 0, none, none⟩⟩

/-- JavaScript Math.round: round half away from zero toward plus infinity,
that is the floor of x + 1/2. -/
noncomputable def jsRound (x : ℝ) : ℤ := ⌊x + 1 / 2⌋

/-- JavaScript Math.atan2 on real arguments (the usual two-argument
arctangent with atan2 0 0 = 0). -/
noncomputable def jsAtan2 (y x : ℝ) : ℝ :=
  if 0 < x then Real.arctan (y / x)
  else if x < 0 ∧ 0 ≤ y then Real.arctan (y / x) + Real.pi
  else if x < 0 ∧ y < 0 then Real.arctan (y / x) - Real.pi
  else if x = 0 ∧ 0 < y then Real.pi / 2
  else if x = 0 ∧ y < 0 then -(Real.pi / 2)
  else 0

/-- JavaScript remainder a % b on reals: a - b * trunc (a / b). -/
noncomputable def jsFmod (a b : ℝ) : ℝ :=
  a - b * ((if 0 ≤ a / b then (⌊a / b⌋ : ℤ) else (⌈a / b⌉ : ℤ)) : ℝ)

namespace MotionCalculator

/-- Earth radius in meters (src/unnamed/part_003). -/
noncomputable def EARTH_RADIUS : ℝ := 6371000

/-- Meters-per-second to km/h conversion scale. -/
noncomputable def MPS_TO_KMH_SCALE : ℝ := 3.6

/-- Reference maximum speed for the 0..255 rescaling. -/
noncomputable def EXPECTED_MAX_SPEED_KMH : ℝ := 200

def DISTANCE_MIN : ℤ := 0

def DISTANCE_MAX : ℤ := 9999999

def SPEED_MIN : ℤ := 0

def SPEED_MAX : ℤ := 255

def DIRECTION_MIN : ℤ := 0

def DIRECTION_MAX : ℤ := 360

/-- Degrees to radians, the local toRadians helper of the source. -/
noncomputable def toRadians (deg : ℝ) : ℝ := deg * (Real.pi / 180)

/-- Radians to degrees, the local toDegrees helper of the source. -/
noncomputable def toDegrees (rad : ℝ) : ℝ := rad * (180 / Real.pi)

/-- MotionCalculator.calculateDistance (src/unnamed/part_003 lines 31-65):
haversine distance in meters, 0 for coordinate-identical points, floored
and clamped to the band DISTANCE_MIN..DISTANCE_MAX. -/
noncomputable def calculateDistance (previous current : Gps) : ℤ :=
  if previous.longitude = current.longitude ∧ previous.latitude = current.latitude then
    DISTANCE_MIN
  else
    let lat1 := previous.latitude
    let lon1 := previous.longitude
    let lat2 := current.latitude
    let lon2 := current.longitude
    let latDistance := toRadians (lat2 - lat1)
    let lonDistance := toRadians (lon2 - lon1)
    let a := Real.sin (latDistance / 2) * Real.sin (latDistance / 2) +
      Real.cos (toRadians lat1) * Real.cos (toRadians lat2) *
        Real.sin (lonDistance / 2) * Real.sin (lonDistance / 2)
    let c := 2 * jsAtan2 (Real.sqrt a) (Real.sqrt (1 - a))
    let distance := EARTH_RADIUS * c
    max DISTANCE_MIN (min ⌊distance⌋ DISTANCE_MAX)

/-- MotionCalculator.calculateSpeed (src/unnamed/part_003 lines 75-104):
distance over elapsed time, converted to km/h, rescaled onto 0..255
assuming 200 km/h maps to 255; 0 when elapsed time is not positive. -/
noncomputable def calculateSpeed (previous current : GpsWithTime) : ℤ :=
  let distanceMeters := calculateDistance ⟨previous.latitude, previous.longitude⟩
    ⟨current.latitude, current.longitude⟩
  let timeMillis := current.intervalAt - previous.intervalAt
  if timeMillis ≤ 0 then SPEED_MIN
  else
    let speedMps := (distanceMeters : ℝ) / ((timeMillis : ℝ) / 1000)
    let speedKmh := speedMps * MPS_TO_KMH_SCALE
    let scaledSpeed := speedKmh / EXPECTED_MAX_SPEED_KMH * (SPEED_MAX : ℝ)
    max SPEED_MIN (min ⌊scaledSpeed⌋ SPEED_MAX)

/-- MotionCalculator.calculateDirection (src/unnamed/part_003 lines 113-147):
initial bearing normalized into 0..360, 0 for coordinate-identical points,
floored and clamped. -/
noncomputable def calculateDirection (previous current : Gps) : ℤ :=
  let lat1 := previous.latitude
  let lon1 := previous.longitude
  let lat2 := current.latitude
  let lon2 := current.longitude
  if lat1 = lat2 ∧ lon1 = lon2 then DIRECTION_MIN
  else
    let radLat1 := toRadians lat1
    let radLat2 := toRadians lat2
    let deltaLon := toRadians (lon2 - lon1)
    let y := Real.sin deltaLon * Real.cos radLat2
    let x := Real.cos radLat1 * Real.sin radLat2 -
      Real.sin radLat1 * Real.cos radLat2 * Real.cos deltaLon
    let bearing := jsFmod (toDegrees (jsAtan2 y x) + (DIRECTION_MAX : ℝ)) (DIRECTION_MAX : ℝ)
    max DIRECTION_MIN (min ⌊bearing⌋ DIRECTION_MAX)

/-- The clamp pipeline is bounded below by 0. -/
lemma clamp_nonneg (x m : ℤ) : 0 ≤ max 0 (min x m) := le_max_left 0 _

/-- The clamp pipeline is bounded above by its cap when the cap is
nonnegative. -/
lemma clamp_le (x m : ℤ) (h : 0 ≤ m) : max 0 (min x m) ≤ m :=
  max_le h (min_le_right x m)

/-- calculateDistance always lands in the distance band. -/
lemma calculateDistance_nonneg (p c : Gps) : 0 ≤ calculateDistance p c := by
  unfold calculateDistance
  split
  · simp [DISTANCE_MIN]
  · exact clamp_nonneg _ _

lemma calculateDistance_le (p c : Gps) : calculateDistance p c ≤ DISTANCE_MAX := by
  unfold calculateDistance
  split
  · simp [DISTANCE_MIN, DISTANCE_MAX]
  · exact clamp_le _ _ (by simp [DISTANCE_MAX])

lemma calculateSpeed_nonneg (p c : GpsWithTime) : 0 ≤ calculateSpeed p c := by
  unfold calculateSpeed
  dsimp only
  split
  · simp [SPEED_MIN]
  · exact clamp_nonneg _ _

lemma calculateSpeed_le (p c : GpsWithTime) : calculateSpeed p c ≤ SPEED_MAX := by
  unfold calculateSpeed
  dsimp only
  split
  · simp [SPEED_MIN, SPEED_MAX]
  · exact clamp_le _ _ (by simp [SPEED_MAX])

lemma calculateDirection_nonneg (p c : Gps) : 0 ≤ calculateDirection p c := by
  unfold calculateDirection
  dsimp only
  split
  · simp [DIRECTION_MIN]
  · exact clamp_nonneg _ _

lemma calculateDirection_le (p c : Gps) : calculateDirection p c ≤ DIRECTION_MAX := by
  unfold calculateDirection
  dsimp only
  split
  · simp [DIRECTION_MIN, DIRECTION_MAX]
  · exact clamp_le _ _ (by simp [DIRECTION_MAX])

end MotionCalculator

/-- C7: for all input points and timestamps, calculateDistance returns an
integer in the band 0..9999999 meters, calculateSpeed an integer in 0..255,
and calculateDirection an integer in 0..360 degrees (the clamp invariant on
all three pure operations; integrality is by construction since the results
live in ℤ, mirroring the Math.floor steps of the source). -/
theorem motion_calculator_clamp_invariant (p c : Gps) (pt ct : GpsWithTime) :
    (0 ≤ MotionCalculator.calculateDistance p c ∧
      MotionCalculator.calculateDistance p c ≤ 9999999) ∧
    (0 ≤ MotionCalculator.calculateSpeed pt ct ∧
      MotionCalculator.calculateSpeed pt ct ≤ 255) ∧
    (0 ≤ MotionCalculator.calculateDirection p c ∧
      MotionCalculator.calculateDirection p c ≤ 360) :=
  ⟨⟨MotionCalculator.calculateDistance_nonneg p c,
      MotionCalculator.calculateDistance_le p c⟩,
    ⟨MotionCalculator.calculateSpeed_nonneg pt ct,
      MotionCalculator.calculateSpeed_le pt ct⟩,
    ⟨MotionCalculator.calculateDirection_nonneg p c,
      MotionCalculator.calculateDirection_le p c⟩⟩

namespace GpsDataGenerator

/-- Sampling-step estimation speed in m/s (about 180 km/h). -/
def ASSUMED_SPEED_MPS : ℤ := 50

/-- Magnitude of the positional jitter in degrees. -/
noncomputable def POSITION_NOISE_MAGNITUDE : ℝ := 0.0001

/-- Minimum number of waypoints accepted by the constructor. -/
def MIN_GPX_POINTS : ℕ := 2

end GpsDataGenerator

/-- Mutable state of a GpsDataGenerator instance (src/unnamed/part_002).
random and the wall clock are externalized: every call that consumes them
receives the drawn values as arguments. -/
structure GenState where
  mdn : String
  gpx : List GpxTrackPoint
  intervalMs : ℤ
  cur : ℕ
  nxt : ℕ
  step : ℤ
  total : ℤ
  lat : ℝ
  lon : ℝ
  prev : Option GpsWithTime
  totalDistance : ℤ

namespace GpsDataGenerator

/-- GpsDataGenerator.calculateStepsBetweenPoints (part_002 lines 98-131).
When the current index is already at or past the last waypoint the total is
set to 1 and the step counter is left untouched; otherwise the total is the
time-difference quotient (when both endpoints carry timestamps) or the
distance-based estimate, and the step counter is reset to 0.  Math.floor of
the float quotient of two integers with positive divisor equals integer
floor division; the distance estimate (distance / 50) * 1000 / intervalMs
is exact rational arithmetic on an integer distance. -/
noncomputable def calculateStepsBetweenPoints (g : GenState) : GenState :=
  if g.gpx.length - 1 ≤ g.cur then { g with total := 1 }
  else
    let currentPoint := g.gpx.getD g.cur default
    let nextPoint := g.gpx.getD g.nxt default
    match currentPoint.time, nextPoint.time with
    | some tc, some tn =>
        { g with total := max 1 ((tn - tc).fdiv g.intervalMs), step := 0 }
    | _, _ =>
        let distance := MotionCalculator.calculateDistance
          ⟨currentPoint.lat, currentPoint.lon⟩ ⟨nextPoint.lat, nextPoint.lon⟩
        let estimatedTimeMs : ℝ := ((distance : ℝ) / (ASSUMED_SPEED_MPS : ℝ)) * 1000
        { g with total := max 1 (jsRound (estimatedTimeMs / (g.intervalMs : ℝ))), step := 0 }

/-- GpsDataGenerator constructor (part_002 lines 41-67) after its length
guard has passed: cursor on the first segment, position at the first
waypoint, first-segment step count precomputed. -/
noncomputable def mkGenState (mdn : String) (gpx : List GpxTrackPoint) (intervalMs : ℤ) :
    GenState :=
  calculateStepsBetweenPoints
    { mdn := mdn, gpx := gpx, intervalMs := intervalMs, cur := 0, nxt := 1,
      step := 0, total := 0, lat := (gpx.getD 0 default).lat,
      lon := (gpx.getD 0 default).lon, prev := none, totalDistance := 0 }

/-- The constructor including its MIN_GPX_POINTS guard: fewer than two
waypoints is a construction error (the source throws). -/
noncomputable def construct (mdn : String) (gpx : List GpxTrackPoint) (intervalMs : ℤ) :
    Except String GenState :=
  if gpx.length < MIN_GPX_POINTS then Except.error "GPX track point array too short"
  else Except.ok (mkGenState mdn gpx intervalMs)

/-- GpsDataGenerator.isEndOfPath (part_002 lines 188-193). -/
def isEndOfPath (g : GenState) : Bool :=
  decide (g.gpx.length ≤ g.nxt) && decide (g.total ≤ g.step)

/-- GpsDataGenerator.advanceToNextStepOrSegment (part_002 lines 277-295). -/
noncomputable def advanceToNextStepOrSegment (g : GenState) : GenState :=
  let g1 := { g with step := g.step + 1 }
  if g1.total ≤ g1.step then
    if g1.gpx.length ≤ g1.nxt then g1
    else
      let g2 := { g1 with cur := g1.nxt, nxt := g1.nxt + 1, step := 0 }
      if g2.nxt < g2.gpx.length then calculateStepsBetweenPoints g2
      else { g2 with total := 1 }
  else g1

/-- GpsDataGenerator.interpolateAndAddNoise (part_002 lines 211-228); r1 and
r2 are the two Math.random draws. -/
noncomputable def interpolateAndAddNoise (g : GenState) (currentPoint nextPoint : GpxTrackPoint)
    (r1 r2 : ℝ) : GenState :=
  let progress : ℝ := (g.step : ℝ) / (g.total : ℝ)
  { g with
    lat := currentPoint.lat + (nextPoint.lat - currentPoint.lat) * progress +
      (r1 - 0.5) * POSITION_NOISE_MAGNITUDE,
    lon := currentPoint.lon + (nextPoint.lon - currentPoint.lon) * progress +
      (r2 - 0.5) * POSITION_NOISE_MAGNITUDE }

/-- GpsDataGenerator.calculateMotionMetrics (part_002 lines 235-271):
speed, direction and segment distance against the previous sample, all 0 on
the very first tick. -/
noncomputable def calculateMotionMetrics (g : GenState) (timestamp : ℤ) : ℤ × ℤ × ℤ :=
  match g.prev with
  | none => (0, 0, 0)
  | some p =>
      let currentGpsWithTime : GpsWithTime := ⟨g.lat, g.lon, timestamp⟩
      let segmentDistance := MotionCalculator.calculateDistance
        ⟨p.latitude, p.longitude⟩ ⟨currentGpsWithTime.latitude, currentGpsWithTime.longitude⟩
      let speed := MotionCalculator.calculateSpeed p currentGpsWithTime
      let direction := MotionCalculator.calculateDirection
        ⟨p.latitude, p.longitude⟩ ⟨currentGpsWithTime.latitude, currentGpsWithTime.longitude⟩
      (speed, direction, segmentDistance)

/-- GpsDataGenerator.generateNextGpsData (part_002 lines 137-180): advance
the cursor, emit the terminal marker none at end of path, otherwise
interpolate (or jitter past the last waypoint), derive motion metrics,
accumulate the odometer and emit the sample.  r1 r2 are the Math.random
draws of this tick and timestamp is the Date value. -/
noncomputable def generateNextGpsData (g : GenState) (r1 r2 : ℝ) (timestamp : ℤ) :
    Option GpsInformation × GenState :=
  let g := advanceToNextStepOrSegment g
  if isEndOfPath g then (none, g)
  else
    let currentPoint := g.gpx.getD g.cur default
    let g :=
      if g.nxt < g.gpx.length then
        interpolateAndAddNoise g currentPoint (g.gpx.getD g.nxt default) r1 r2
      else
        { g with lat := g.lat + (r1 - 0.5) * POSITION_NOISE_MAGNITUDE,
                 lon := g.lon + (r2 - 0.5) * POSITION_NOISE_MAGNITUDE }
    let m := calculateMotionMetrics g timestamp
    let g := { g with totalDistance := g.totalDistance + m.2.2 }
    let newGpsInfo : GpsInformation :=
      ⟨g.mdn, g.lat, g.lon, m.1, m.2.1, g.totalDistance, timestamp⟩
    (some newGpsInfo, { g with prev := some ⟨g.lat, g.lon, timestamp⟩ })

/-- GpsDataGenerator.getCurrentGpsInfo (part_002 lines 82-92): current
position at rest, never null, does not mutate the state. -/
noncomputable def getCurrentGpsInfo (g : GenState) (now : ℤ) : GpsInformation :=
  ⟨g.mdn, g.lat, g.lon, 0, 0, g.totalDistance, now⟩

/-- State after n generateNextGpsData calls driven by the random and clock
oracles o1 o2 (Math.random draws) and ot (timestamps). -/
noncomputable def genRun (g : GenState) (o1 o2 : ℕ → ℝ) (ot : ℕ → ℤ) : ℕ → GenState
  | 0 => g
  | n + 1 => (generateNextGpsData (genRun g o1 o2 ot n) (o1 n) (o2 n) (ot n)).2

/-- Output of call number n + 1 (0-indexed n) in the oracle-driven run. -/
noncomputable def genOut (g : GenState) (o1 o2 : ℕ → ℝ) (ot : ℕ → ℤ) (n : ℕ) :
    Option GpsInformation :=
  (generateNextGpsData (genRun g o1 o2 ot n) (o1 n) (o2 n) (ot n)).1

end GpsDataGenerator

namespace GpsDataGenerator

@[simp] lemma calcSteps_mdn (g : GenState) :
    (calculateStepsBetweenPoints g).mdn = g.mdn := by
  unfold calculateStepsBetweenPoints
  split
  · rfl
  · dsimp only
    split <;> rfl

@[simp] lemma calcSteps_gpx (g : GenState) :
    (calculateStepsBetweenPoints g).gpx = g.gpx := by
  unfold calculateStepsBetweenPoints
  split
  · rfl
  · dsimp only
    split <;> rfl

@[simp] lemma calcSteps_intervalMs (g : GenState) :
    (calculateStepsBetweenPoints g).intervalMs = g.intervalMs := by
  unfold calculateStepsBetweenPoints
  split
  · rfl
  · dsimp only
    split <;> rfl

@[simp] lemma calcSteps_cur (g : GenState) :
    (calculateStepsBetweenPoints g).cur = g.cur := by
  unfold calculateStepsBetweenPoints
  split
  · rfl
  · dsimp only
    split <;> rfl

@[simp] lemma calcSteps_nxt (g : GenState) :
    (calculateStepsBetweenPoints g).nxt = g.nxt := by
  unfold calculateStepsBetweenPoints
  split
  · rfl
  · dsimp only
    split <;> rfl

@[simp] lemma calcSteps_lat (g : GenState) :
    (calculateStepsBetweenPoints g).lat = g.lat := by
  unfold calculateStepsBetweenPoints
  split
  · rfl
  · dsimp only
    split <;> rfl

@[simp] lemma calcSteps_lon (g : GenState) :
    (calculateStepsBetweenPoints g).lon = g.lon := by
  unfold calculateStepsBetweenPoints
  split
  · rfl
  · dsimp only
    split <;> rfl

@[simp] lemma calcSteps_prev (g : GenState) :
    (calculateStepsBetweenPoints g).prev = g.prev := by
  unfold calculateStepsBetweenPoints
  split
  · rfl
  · dsimp only
    split <;> rfl

@[simp] lemma calcSteps_totalDistance (g : GenState) :
    (calculateStepsBetweenPoints g).totalDistance = g.totalDistance := by
  unfold calculateStepsBetweenPoints
  split
  · rfl
  · dsimp only
    split <;> rfl

/-- Every branch of the step computation yields a total of at least 1
(the max(1, ...) floors of the source). -/
lemma one_le_calcSteps_total (g : GenState) :
    1 ≤ (calculateStepsBetweenPoints g).total := by
  unfold calculateStepsBetweenPoints
  split
  · exact le_refl 1
  · dsimp only
    split
    · exact le_max_left 1 _
    · exact le_max_left 1 _

/-- The step counter after the step computation: reset to 0 in the two
computing branches and untouched in the early-return branch. -/
lemma calcSteps_step (g : GenState) :
    (calculateStepsBetweenPoints g).step = g.step ∨
      (calculateStepsBetweenPoints g).step = 0 := by
  unfold calculateStepsBetweenPoints
  split
  · exact Or.inl rfl
  · dsimp only
    split
    · exact Or.inr rfl
    · exact Or.inr rfl

/-- advanceToNextStepOrSegment when the current segment still has steps
left: only the step counter moves. -/
lemma advance_of_within_segment (g : GenState) (h : ¬ g.total ≤ g.step + 1) :
    advanceToNextStepOrSegment g = { g with step := g.step + 1 } := by
  unfold advanceToNextStepOrSegment
  dsimp only
  rw [if_neg h]

/-- advanceToNextStepOrSegment when the segment is exhausted but the
waypoints are already consumed: only the step counter moves. -/
lemma advance_of_past_end (g : GenState) (h1 : g.total ≤ g.step + 1)
    (h2 : g.gpx.length ≤ g.nxt) :
    advanceToNextStepOrSegment g = { g with step := g.step + 1 } := by
  unfold advanceToNextStepOrSegment
  dsimp only
  rw [if_pos h1, if_pos h2]

/-- advanceToNextStepOrSegment when the segment is exhausted and the next
segment starts at the final waypoint: move the cursor and set the trailing
step total of 1. -/
lemma advance_of_to_final (g : GenState) (h1 : g.total ≤ g.step + 1)
    (h2 : g.nxt < g.gpx.length) (h3 : ¬ g.nxt + 1 < g.gpx.length) :
    advanceToNextStepOrSegment g =
      { g with cur := g.nxt, nxt := g.nxt + 1, step := 0, total := 1 } := by
  unfold advanceToNextStepOrSegment
  dsimp only
  rw [if_pos h1, if_neg (by omega), if_neg h3]

/-- advanceToNextStepOrSegment when the segment is exhausted and a further
segment follows: move the cursor and recompute its step count. -/
lemma advance_of_to_next_segment (g : GenState) (h1 : g.total ≤ g.step + 1)
    (h2 : g.nxt + 1 < g.gpx.length) :
    advanceToNextStepOrSegment g =
      calculateStepsBetweenPoints { g with cur := g.nxt, nxt := g.nxt + 1, step := 0 } := by
  unfold advanceToNextStepOrSegment
  dsimp only
  rw [if_pos h1, if_neg (by omega), if_pos h2]

@[simp] lemma advance_mdn (g : GenState) :
    (advanceToNextStepOrSegment g).mdn = g.mdn := by
  unfold advanceToNextStepOrSegment
  dsimp only
  split
  · split
    · rfl
    · split <;> simp
  · rfl

@[simp] lemma advance_gpx (g : GenState) :
    (advanceToNextStepOrSegment g).gpx = g.gpx := by
  unfold advanceToNextStepOrSegment
  dsimp only
  split
  · split
    · rfl
    · split <;> simp
  · rfl

@[simp] lemma advance_intervalMs (g : GenState) :
    (advanceToNextStepOrSegment g).intervalMs = g.intervalMs := by
  unfold advanceToNextStepOrSegment
  dsimp only
  split
  · split
    · rfl
    · split <;> simp
  · rfl

@[simp] lemma advance_lat (g : GenState) :
    (advanceToNextStepOrSegment g).lat = g.lat := by
  unfold advanceToNextStepOrSegment
  dsimp only
  split
  · split
    · rfl
    · split <;> simp
  · rfl

@[simp] lemma advance_lon (g : GenState) :
    (advanceToNextStepOrSegment g).lon = g.lon := by
  unfold advanceToNextStepOrSegment
  dsimp only
  split
  · split
    · rfl
    · split <;> simp
  · rfl

@[simp] lemma advance_prev (g : GenState) :
    (advanceToNextStepOrSegment g).prev = g.prev := by
  unfold advanceToNextStepOrSegment
  dsimp only
  split
  · split
    · rfl
    · split <;> simp
  · rfl

@[simp] lemma advance_totalDistance (g : GenState) :
    (advanceToNextStepOrSegment g).totalDistance = g.totalDistance := by
  unfold advanceToNextStepOrSegment
  dsimp only
  split
  · split
    · rfl
    · split <;> simp
  · rfl

@[simp] lemma interpolate_cur (g : GenState) (cp np : GpxTrackPoint) (r1 r2 : ℝ) :
    (interpolateAndAddNoise g cp np r1 r2).cur = g.cur := rfl

@[simp] lemma interpolate_nxt (g : GenState) (cp np : GpxTrackPoint) (r1 r2 : ℝ) :
    (interpolateAndAddNoise g cp np r1 r2).nxt = g.nxt := rfl

@[simp] lemma interpolate_step (g : GenState) (cp np : GpxTrackPoint) (r1 r2 : ℝ) :
    (interpolateAndAddNoise g cp np r1 r2).step = g.step := rfl

@[simp] lemma interpolate_total (g : GenState) (cp np : GpxTrackPoint) (r1 r2 : ℝ) :
    (interpolateAndAddNoise g cp np r1 r2).total = g.total := rfl

@[simp] lemma interpolate_gpx (g : GenState) (cp np : GpxTrackPoint) (r1 r2 : ℝ) :
    (interpolateAndAddNoise g cp np r1 r2).gpx = g.gpx := rfl

@[simp] lemma interpolate_totalDistance (g : GenState) (cp np : GpxTrackPoint) (r1 r2 : ℝ) :
    (interpolateAndAddNoise g cp np r1 r2).totalDistance = g.totalDistance := rfl

@[simp] lemma interpolate_intervalMs (g : GenState) (cp np : GpxTrackPoint) (r1 r2 : ℝ) :
    (interpolateAndAddNoise g cp np r1 r2).intervalMs = g.intervalMs := rfl

@[simp] lemma interpolate_mdn (g : GenState) (cp np : GpxTrackPoint) (r1 r2 : ℝ) :
    (interpolateAndAddNoise g cp np r1 r2).mdn = g.mdn := rfl

/-- The segment distance contributed by one tick is the clamped haversine
value, hence nonnegative. -/
lemma metrics_segDist_nonneg (g : GenState) (t : ℤ) :
    0 ≤ (calculateMotionMetrics g t).2.2 := by
  unfold calculateMotionMetrics
  rcases g.prev with _ | p
  · simp
  · dsimp only
    exact MotionCalculator.calculateDistance_nonneg _ _

/-- Once past the end of the path, a call degenerates to the terminal
marker with only the step counter advanced. -/
lemma generateNext_of_end (g : GenState) (r1 r2 : ℝ) (t : ℤ)
    (h : isEndOfPath (advanceToNextStepOrSegment g) = true) :
    generateNextGpsData g r1 r2 t = (none, advanceToNextStepOrSegment g) := by
  unfold generateNextGpsData
  rw [if_pos h]

/-- The emitted sample is present exactly when the advanced cursor is not
at end of path. -/
lemma generateNext_fst_isSome (g : GenState) (r1 r2 : ℝ) (t : ℤ) :
    (generateNextGpsData g r1 r2 t).1.isSome =
      !(isEndOfPath (advanceToNextStepOrSegment g)) := by
  unfold generateNextGpsData
  dsimp only
  split
  · simp_all
  · simp_all

/-- The cursor of the post-call state is the cursor of the advanced state:
the sampling and odometer phase only writes position, previous-sample and
odometer fields. -/
lemma generateNext_snd_cursor (g : GenState) (r1 r2 : ℝ) (t : ℤ) :
    (generateNextGpsData g r1 r2 t).2.cur = (advanceToNextStepOrSegment g).cur ∧
    (generateNextGpsData g r1 r2 t).2.nxt = (advanceToNextStepOrSegment g).nxt ∧
    (generateNextGpsData g r1 r2 t).2.step = (advanceToNextStepOrSegment g).step ∧
    (generateNextGpsData g r1 r2 t).2.total = (advanceToNextStepOrSegment g).total ∧
    (generateNextGpsData g r1 r2 t).2.gpx = g.gpx := by
  unfold generateNextGpsData
  dsimp only
  split
  · simp
  · split <;> simp

end GpsDataGenerator

namespace GpsDataGenerator

/-- A single call made from an end-of-path state: terminal marker out, and
the state stays end-of-path (only the step counter grows). -/
lemma generateNext_of_end_state (g : GenState) (r1 r2 : ℝ) (t : ℤ)
    (h : isEndOfPath g = true) :
    generateNextGpsData g r1 r2 t = (none, advanceToNextStepOrSegment g) ∧
      isEndOfPath (advanceToNextStepOrSegment g) = true := by
  simp only [isEndOfPath, Bool.and_eq_true, decide_eq_true_eq] at h
  obtain ⟨h1, h2⟩ := h
  have hadv : advanceToNextStepOrSegment g = { g with step := g.step + 1 } :=
    advance_of_past_end g (by omega) h1
  have hend : isEndOfPath (advanceToNextStepOrSegment g) = true := by
    rw [hadv]
    simp only [isEndOfPath, Bool.and_eq_true, decide_eq_true_eq]
    exact ⟨h1, by omega⟩
  exact ⟨generateNext_of_end g r1 r2 t hend, hend⟩

/-- End-of-path is invariant along any oracle-driven run. -/
lemma genRun_end_stable (g : GenState) (o1 o2 : ℕ → ℝ) (ot : ℕ → ℤ)
    (h : isEndOfPath g = true) :
    ∀ n, isEndOfPath (genRun g o1 o2 ot n) = true := by
  intro n
  induction n with
  | zero => exact h
  | succ n ih =>
      have := generateNext_of_end_state (genRun g o1 o2 ot n) (o1 n) (o2 n) (ot n) ih
      show isEndOfPath (generateNextGpsData (genRun g o1 o2 ot n) (o1 n) (o2 n) (ot n)).2 = true
      rw [this.1]
      exact this.2

end GpsDataGenerator

/-- C5: once the interpolator has reached end of track, every further
generateNextGpsData call on the same instance returns the terminal marker
null and leaves the instance at end of track, for any sequence of random
and clock oracle values: repeated next calls after end of track are
stable.  The embedding is total, mirroring that the source path returns
before any state access that could throw. -/
theorem next_after_end_stable (g : GenState) (o1 o2 : ℕ → ℝ) (ot : ℕ → ℤ)
    (h : GpsDataGenerator.isEndOfPath g = true) (n : ℕ) :
    GpsDataGenerator.genOut g o1 o2 ot n = none ∧
      GpsDataGenerator.isEndOfPath (GpsDataGenerator.genRun g o1 o2 ot n) = true := by
  have hend := GpsDataGenerator.genRun_end_stable g o1 o2 ot h n
  refine ⟨?_, hend⟩
  have := GpsDataGenerator.generateNext_of_end_state (GpsDataGenerator.genRun g o1 o2 ot n)
    (o1 n) (o2 n) (ot n) hend
  show (GpsDataGenerator.generateNextGpsData (GpsDataGenerator.genRun g o1 o2 ot n)
    (o1 n) (o2 n) (ot n)).1 = none
  rw [this.1]

/-- Two-waypoint track used to exercise the terminal behavior. -/
noncomputable def c5Track : List GpxTrackPoint :=
  [⟨37.5, 127.0, none, some 0⟩, ⟨37.5, 127.01, none, some 1000⟩]

/-- A generator state over c5Track that sits at end of path. -/
noncomputable def c5EndState : GenState :=
  { mdn := "1", gpx := c5Track, intervalMs := 1000, cur := 1, nxt := 2,
    step := 1, total := 1, lat := 37.5, lon := 127.01, prev := none,
    totalDistance := 0 }

/-- Witness for C5 at a concrete end-of-path state and concrete oracles. -/
theorem next_after_end_stable_witness :
    GpsDataGenerator.isEndOfPath c5EndState = true ∧
      (GpsDataGenerator.genOut c5EndState (fun _ => 0) (fun _ => 0) (fun _ => 0) 5 = none ∧
        GpsDataGenerator.isEndOfPath
          (GpsDataGenerator.genRun c5EndState (fun _ => 0) (fun _ => 0) (fun _ => 0) 5) = true) :=
  ⟨rfl, next_after_end_stable c5EndState (fun _ => 0) (fun _ => 0) (fun _ => 0) rfl 5⟩

namespace GpsDataGenerator

/-- One call adds a nonnegative segment distance to the odometer, and a
non-terminal call reports exactly the updated odometer in its sample. -/
lemma generateNext_totalDistance_spec (g : GenState) (r1 r2 : ℝ) (t : ℤ) :
    ∃ d, 0 ≤ d ∧
      (generateNextGpsData g r1 r2 t).2.totalDistance = g.totalDistance + d ∧
      ((generateNextGpsData g r1 r2 t).1 = none ∨
        ∃ i, (generateNextGpsData g r1 r2 t).1 = some i ∧
          i.totalDistance = g.totalDistance + d) := by
  unfold generateNextGpsData
  dsimp only
  split
  · exact ⟨0, le_refl 0, by simp, Or.inl rfl⟩
  · split
    · refine ⟨(calculateMotionMetrics (interpolateAndAddNoise (advanceToNextStepOrSegment g)
        ((advanceToNextStepOrSegment g).gpx.getD (advanceToNextStepOrSegment g).cur default)
        ((advanceToNextStepOrSegment g).gpx.getD (advanceToNextStepOrSegment g).nxt default)
        r1 r2) t).2.2, metrics_segDist_nonneg _ t, by simp, Or.inr ⟨_, rfl, by simp⟩⟩
    · refine ⟨(calculateMotionMetrics
        { advanceToNextStepOrSegment g with
          lat := (advanceToNextStepOrSegment g).lat + (r1 - 0.5) * POSITION_NOISE_MAGNITUDE,
          lon := (advanceToNextStepOrSegment g).lon + (r2 - 0.5) * POSITION_NOISE_MAGNITUDE }
        t).2.2, metrics_segDist_nonneg _ t, by simp, Or.inr ⟨_, rfl, by simp⟩⟩

end GpsDataGenerator

/-- C6: along any sequence of generateNextGpsData calls on one generator
instance the odometer is monotonically non-decreasing, every returned
sample reports the odometer of the post-call state (so successive samples
carry non-decreasing cumulative distances), and the odometer is 0 exactly
at fresh construction. -/
theorem cumulative_distance_monotone (g : GenState) (o1 o2 : ℕ → ℝ) (ot : ℕ → ℤ)
    (n : ℕ) (mdn : String) (gpx : List GpxTrackPoint) (ims : ℤ) :
    (GpsDataGenerator.genRun g o1 o2 ot n).totalDistance ≤
      (GpsDataGenerator.genRun g o1 o2 ot (n + 1)).totalDistance ∧
    (GpsDataGenerator.genOut g o1 o2 ot n = none ∨
      ∃ i, GpsDataGenerator.genOut g o1 o2 ot n = some i ∧
        i.totalDistance = (GpsDataGenerator.genRun g o1 o2 ot (n + 1)).totalDistance) ∧
    (GpsDataGenerator.mkGenState mdn gpx ims).totalDistance = 0 := by
  obtain ⟨d, hd, hstate, hout⟩ := GpsDataGenerator.generateNext_totalDistance_spec
    (GpsDataGenerator.genRun g o1 o2 ot n) (o1 n) (o2 n) (ot n)
  refine ⟨?_, ?_, by simp [GpsDataGenerator.mkGenState]⟩
  · show (GpsDataGenerator.genRun g o1 o2 ot n).totalDistance ≤
      (GpsDataGenerator.generateNextGpsData (GpsDataGenerator.genRun g o1 o2 ot n)
        (o1 n) (o2 n) (ot n)).2.totalDistance
    omega
  · rcases hout with h | ⟨i, hi, hieq⟩
    · exact Or.inl h
    · refine Or.inr ⟨i, hi, ?_⟩
      show i.totalDistance = (GpsDataGenerator.generateNextGpsData
        (GpsDataGenerator.genRun g o1 o2 ot n) (o1 n) (o2 n) (ot n)).2.totalDistance
      omega


/-- States of a GpsDataGenerator reachable from a successful construction
(at least MIN_GPX_POINTS waypoints) by generateNextGpsData calls under any
oracle values.  getCurrentGpsInfo does not mutate the state, so it adds no
transitions. -/
inductive GenReach : GenState → Prop where
  | init (mdn : String) (gpx : List GpxTrackPoint) (intervalMs : ℤ) :
      2 ≤ gpx.length → GenReach (GpsDataGenerator.mkGenState mdn gpx intervalMs)
  | next (g : GenState) (r1 r2 : ℝ) (t : ℤ) : GenReach g →
      GenReach (GpsDataGenerator.generateNextGpsData g r1 r2 t).2

namespace GpsDataGenerator

/-- Inductive cursor invariant of the generator. -/
def GenInv (g : GenState) : Prop :=
  g.nxt = g.cur + 1 ∧ 1 ≤ g.total ∧ 0 ≤ g.step ∧
    (g.nxt < g.gpx.length → g.step ≤ g.total)

/-- Entering the step computation with a zeroed step counter leaves it
zeroed. -/
lemma calcSteps_step_of_zero (g : GenState) (h : g.step = 0) :
    (calculateStepsBetweenPoints g).step = 0 := by
  rcases calcSteps_step g with h2 | h2
  · rw [h2, h]
  · exact h2

/-- The step computation establishes the cursor invariant whenever the
indices are adjacent and the step counter is zeroed. -/
lemma genInv_calcSteps (g : GenState) (h1 : g.nxt = g.cur + 1) (h2 : g.step = 0) :
    GenInv (calculateStepsBetweenPoints g) := by
  have hst := calcSteps_step_of_zero g h2
  have htot := one_le_calcSteps_total g
  refine ⟨by simp [h1], htot, by rw [hst], ?_⟩
  intro _
  rw [hst]
  omega

lemma genInv_mk (mdn : String) (gpx : List GpxTrackPoint) (ims : ℤ) :
    GenInv (mkGenState mdn gpx ims) :=
  genInv_calcSteps _ rfl rfl

lemma genInv_advance (g : GenState) (h : GenInv g) :
    GenInv (advanceToNextStepOrSegment g) := by
  obtain ⟨hnc, ht, hs, hin⟩ := h
  by_cases h1 : g.total ≤ g.step + 1
  · by_cases h2 : g.gpx.length ≤ g.nxt
    · rw [advance_of_past_end g h1 h2]
      unfold GenInv
      dsimp only
      exact ⟨hnc, ht, by omega, fun hlt => by omega⟩
    · push_neg at h2
      by_cases h3 : g.nxt + 1 < g.gpx.length
      · rw [advance_of_to_next_segment g h1 h3]
        exact genInv_calcSteps _ rfl rfl
      · rw [advance_of_to_final g h1 h2 h3]
        unfold GenInv
        dsimp only
        exact ⟨rfl, by omega, le_refl 0, fun _ => by omega⟩
  · rw [advance_of_within_segment g h1]
    unfold GenInv
    dsimp only
    exact ⟨hnc, ht, by omega, fun _ => by omega⟩

lemma genInv_generateNext (g : GenState) (r1 r2 : ℝ) (t : ℤ) (h : GenInv g) :
    GenInv (generateNextGpsData g r1 r2 t).2 := by
  obtain ⟨hc, hn, hst, htt, hg⟩ := generateNext_snd_cursor g r1 r2 t
  have ha := genInv_advance g h
  obtain ⟨a1, a2, a3, a4⟩ := ha
  refine ⟨by rw [hc, hn]; exact a1, by rw [htt]; exact a2, by rw [hst]; exact a3, ?_⟩
  intro hlt
  rw [hst, htt]
  apply a4
  rw [advance_gpx]
  rw [hn, hg] at hlt
  exact hlt

end GpsDataGenerator

/-- Track with a single one-second segment: three calls push the cursor
past end of path and keep incrementing the step counter. -/
noncomputable def c4Track : List GpxTrackPoint :=
  [⟨37.5, 127.0, none, some 0⟩, ⟨37.5, 127.01, none, some 1000⟩]

/-- The generator state reached from construction over c4Track by three
generateNextGpsData calls (random draws 0, timestamps 0). -/
noncomputable def c4State : GenState :=
  (GpsDataGenerator.generateNextGpsData
    ((GpsDataGenerator.generateNextGpsData
      ((GpsDataGenerator.generateNextGpsData
        (GpsDataGenerator.mkGenState "1" c4Track 1000) 0 0 0).2) 0 0 0).2) 0 0 0).2

/-- C4 counterexample: c4State is reachable by next() calls from a freshly
constructed generator, yet its step counter (2) exceeds its segment total
(1) — the claimed bound step at most totalStepsBetweenPoints fails once the
path end has been passed. -/
theorem cursor_invariant_counterexample :
    GenReach c4State ∧ ¬ c4State.step ≤ c4State.total :=
  ⟨GenReach.next _ 0 0 0 (GenReach.next _ 0 0 0 (GenReach.next _ 0 0 0
    (GenReach.init "1" c4Track 1000 (by decide)))), by decide⟩

/-- C4 amended: in every reachable state of the generator the cursor
satisfies nextTrackPointIndex = currentTrackPointIndex + 1 and
0 ≤ step, and step ≤ totalStepsBetweenPoints holds in every reachable
state that is not end-of-path (after end of path further calls keep
incrementing step past the total, see the counterexample). -/
theorem cursor_invariant_reachable (g : GenState) (h : GenReach g) :
    g.nxt = g.cur + 1 ∧ 0 ≤ g.step ∧
      (GpsDataGenerator.isEndOfPath g = false → g.step ≤ g.total) := by
  have hi : GpsDataGenerator.GenInv g := by
    induction h with
    | init mdn gpx ims _ => exact GpsDataGenerator.genInv_mk mdn gpx ims
    | next g r1 r2 t _ ih => exact GpsDataGenerator.genInv_generateNext g r1 r2 t ih
  refine ⟨hi.1, hi.2.2.1, ?_⟩
  intro hend
  have hne : ¬ (g.gpx.length ≤ g.nxt ∧ g.total ≤ g.step) := by
    intro hcon
    rw [show GpsDataGenerator.isEndOfPath g =
      (decide (g.gpx.length ≤ g.nxt) && decide (g.total ≤ g.step)) from rfl] at hend
    simp [hcon.1, hcon.2] at hend
  by_cases hlt : g.nxt < g.gpx.length
  · exact hi.2.2.2 hlt
  · have hfalse : g.total ≤ g.step → False := fun hc => hne ⟨by omega, hc⟩
    omega

/-- Witness for the amended C4 at a freshly constructed concrete
generator. -/
theorem cursor_invariant_reachable_witness :
    GenReach (GpsDataGenerator.mkGenState "1" c4Track 1000) ∧
      ((GpsDataGenerator.mkGenState "1" c4Track 1000).nxt =
          (GpsDataGenerator.mkGenState "1" c4Track 1000).cur + 1 ∧
        0 ≤ (GpsDataGenerator.mkGenState "1" c4Track 1000).step ∧
        (GpsDataGenerator.isEndOfPath (GpsDataGenerator.mkGenState "1" c4Track 1000) = false →
          (GpsDataGenerator.mkGenState "1" c4Track 1000).step ≤
            (GpsDataGenerator.mkGenState "1" c4Track 1000).total)) :=
  ⟨GenReach.init "1" c4Track 1000 (by decide),
    cursor_invariant_reachable _ (GenReach.init "1" c4Track 1000 (by decide))⟩

/-- Scenario A track: two waypoints 0.01 degrees of longitude apart with
timestamps 10 seconds apart. -/
noncomputable def scenarioATrack (t0 : ℤ) : List GpxTrackPoint :=
  [⟨37.5, 127.0, none, some t0⟩, ⟨37.5, 127.01, none, some (t0 + 10000)⟩]

namespace GpsDataGenerator

/-- The step computation in the timed branch. -/
lemma calcSteps_timed (g : GenState) (tc tn : ℤ)
    (hlen : ¬ g.gpx.length - 1 ≤ g.cur)
    (hc : (g.gpx.getD g.cur default).time = some tc)
    (hn : (g.gpx.getD g.nxt default).time = some tn) :
    calculateStepsBetweenPoints g =
      { g with total := max 1 ((tn - tc).fdiv g.intervalMs), step := 0 } := by
  unfold calculateStepsBetweenPoints
  rw [if_neg hlen]
  dsimp only
  rw [hc, hn]

/-- Construction over the Scenario A track: cursor on the first segment
with exactly 10 interpolation steps. -/
lemma scenarioA_init (t0 : ℤ) :
    mkGenState "1" (scenarioATrack t0) 1000 =
      { mdn := "1", gpx := scenarioATrack t0, intervalMs := 1000, cur := 0, nxt := 1,
        step := 0, total := 10, lat := (37.5 : ℝ), lon := (127.0 : ℝ), prev := none,
        totalDistance := 0 } := by
  have hbase := calcSteps_timed
    { mdn := "1", gpx := scenarioATrack t0, intervalMs := 1000, cur := 0, nxt := 1,
      step := 0, total := 0, lat := ((scenarioATrack t0).getD 0 default).lat,
      lon := ((scenarioATrack t0).getD 0 default).lon, prev := none, totalDistance := 0 }
    t0 (t0 + 10000) (by simp [scenarioATrack]) (by simp [scenarioATrack])
    (by simp [scenarioATrack])
  unfold mkGenState
  rw [hbase]
  have harith : t0 + 10000 - t0 = (10000 : ℤ) := by ring
  dsimp only
  rw [harith]
  have hfd : (1 : ℤ) ⊔ Int.fdiv 10000 1000 = 10 := by decide
  simp [scenarioATrack, hfd]

/-- Cursor trace over the first ten calls of Scenario A: after k calls
(k at most 9) the cursor is still inside the first segment at step k. -/
lemma scenarioA_cursor (t0 : ℤ) (o1 o2 : ℕ → ℝ) (ot : ℕ → ℤ) :
    ∀ k, k ≤ 9 →
      (genRun (mkGenState "1" (scenarioATrack t0) 1000) o1 o2 ot k).cur = 0 ∧
      (genRun (mkGenState "1" (scenarioATrack t0) 1000) o1 o2 ot k).nxt = 1 ∧
      (genRun (mkGenState "1" (scenarioATrack t0) 1000) o1 o2 ot k).step = (k : ℤ) ∧
      (genRun (mkGenState "1" (scenarioATrack t0) 1000) o1 o2 ot k).total = 10 ∧
      (genRun (mkGenState "1" (scenarioATrack t0) 1000) o1 o2 ot k).gpx = scenarioATrack t0 := by
  intro k
  induction k with
  | zero =>
      intro _
      rw [show genRun (mkGenState "1" (scenarioATrack t0) 1000) o1 o2 ot 0 =
        mkGenState "1" (scenarioATrack t0) 1000 from rfl, scenarioA_init t0]
      norm_num
  | succ k ih =>
      intro hk
      obtain ⟨hc, hn, hs, ht, hg⟩ := ih (by omega)
      have hrun : genRun (mkGenState "1" (scenarioATrack t0) 1000) o1 o2 ot (k + 1) =
          (generateNextGpsData (genRun (mkGenState "1" (scenarioATrack t0) 1000) o1 o2 ot k)
            (o1 k) (o2 k) (ot k)).2 := rfl
      obtain ⟨pc, pn, ps, pt, pg⟩ := generateNext_snd_cursor
        (genRun (mkGenState "1" (scenarioATrack t0) 1000) o1 o2 ot k) (o1 k) (o2 k) (ot k)
      have hadv : advanceToNextStepOrSegment
          (genRun (mkGenState "1" (scenarioATrack t0) 1000) o1 o2 ot k) =
          { genRun (mkGenState "1" (scenarioATrack t0) 1000) o1 o2 ot k with
            step := (genRun (mkGenState "1" (scenarioATrack t0) 1000) o1 o2 ot k).step + 1 } := by
        apply advance_of_within_segment
        rw [hs, ht]
        have : (k : ℤ) ≤ 8 := by exact_mod_cast Nat.le_of_lt_succ (by omega)
        omega
      rw [hrun, pc, pn, ps, pt, hadv]
      refine ⟨hc, hn, ?_, ht, pg.trans hg⟩
      dsimp only
      rw [hs]
      push_cast
      ring

/-- Each of the first ten Scenario A calls emits a sample. -/
lemma scenarioA_out_some (t0 : ℤ) (o1 o2 : ℕ → ℝ) (ot : ℕ → ℤ) :
    ∀ k, k ≤ 9 →
      (genOut (mkGenState "1" (scenarioATrack t0) 1000) o1 o2 ot k).isSome = true := by
  intro k hk
  obtain ⟨hc, hn, hs, ht, hg⟩ := scenarioA_cursor t0 o1 o2 ot k hk
  have hlen : (genRun (mkGenState "1" (scenarioATrack t0) 1000) o1 o2 ot k).gpx.length = 2 := by
    rw [hg]
    rfl
  show (generateNextGpsData (genRun (mkGenState "1" (scenarioATrack t0) 1000) o1 o2 ot k)
    (o1 k) (o2 k) (ot k)).1.isSome = true
  rw [generateNext_fst_isSome]
  by_cases hk8 : k ≤ 8
  · rw [advance_of_within_segment _ (by
      rw [hs, ht]
      have hcast : (k : ℤ) ≤ 8 := by exact_mod_cast hk8
      omega)]
    simp [isEndOfPath, hn, hlen]
  · have hk9 : k = 9 := by omega
    subst hk9
    rw [advance_of_to_final _ (by rw [hs, ht]; norm_num)
      (by rw [hn, hlen]; omega)
      (by rw [hn, hlen]; omega)]
    simp [isEndOfPath, hn, hs, ht, hlen]

/-- One-step unfolding of the oracle-driven run (symbolic index). -/
lemma genRun_succ (g : GenState) (o1 o2 : ℕ → ℝ) (ot : ℕ → ℤ) (n : ℕ) :
    genRun g o1 o2 ot (n + 1) =
      (generateNextGpsData (genRun g o1 o2 ot n) (o1 n) (o2 n) (ot n)).2 := rfl

/-- Unfolding of the call-output abbreviation (symbolic index). -/
lemma genOut_eq (g : GenState) (o1 o2 : ℕ → ℝ) (ot : ℕ → ℤ) (n : ℕ) :
    genOut g o1 o2 ot n =
      (generateNextGpsData (genRun g o1 o2 ot n) (o1 n) (o2 n) (ot n)).1 := rfl

/-- After the tenth Scenario A call the cursor sits on the trailing
single-step segment at the final waypoint. -/
lemma scenarioA_after_ten (t0 : ℤ) (o1 o2 : ℕ → ℝ) (ot : ℕ → ℤ) :
    (genRun (mkGenState "1" (scenarioATrack t0) 1000) o1 o2 ot 10).cur = 1 ∧
    (genRun (mkGenState "1" (scenarioATrack t0) 1000) o1 o2 ot 10).nxt = 2 ∧
    (genRun (mkGenState "1" (scenarioATrack t0) 1000) o1 o2 ot 10).step = 0 ∧
    (genRun (mkGenState "1" (scenarioATrack t0) 1000) o1 o2 ot 10).total = 1 ∧
    (genRun (mkGenState "1" (scenarioATrack t0) 1000) o1 o2 ot 10).gpx = scenarioATrack t0 := by
  obtain ⟨hc, hn, hs, ht, hg⟩ := scenarioA_cursor t0 o1 o2 ot 9 (by omega)
  have hlen : (genRun (mkGenState "1" (scenarioATrack t0) 1000) o1 o2 ot 9).gpx.length = 2 := by
    rw [hg]
    rfl
  have hrun : genRun (mkGenState "1" (scenarioATrack t0) 1000) o1 o2 ot 10 =
      (generateNextGpsData (genRun (mkGenState "1" (scenarioATrack t0) 1000) o1 o2 ot 9)
        (o1 9) (o2 9) (ot 9)).2 := genRun_succ _ o1 o2 ot 9
  obtain ⟨pc, pn, ps, pt, pg⟩ := generateNext_snd_cursor
    (genRun (mkGenState "1" (scenarioATrack t0) 1000) o1 o2 ot 9) (o1 9) (o2 9) (ot 9)
  have hadv := advance_of_to_final
    (genRun (mkGenState "1" (scenarioATrack t0) 1000) o1 o2 ot 9)
    (by rw [hs, ht]; norm_num)
    (by rw [hn, hlen]; omega)
    (by rw [hn, hlen]; omega)
  rw [hrun]
  refine ⟨?_, ?_, ?_, ?_, ?_⟩
  · simp only [pc, hadv]
    exact hn
  · simp only [pn, hadv]
    simp only [hn]
  · simp only [ps, hadv]
  · simp only [pt, hadv]
  · simp only [pg, hg]

/-- The eleventh Scenario A call is terminal and leaves the generator at
end of path; the state after ten calls is not yet end of path. -/
lemma scenarioA_end (t0 : ℤ) (o1 o2 : ℕ → ℝ) (ot : ℕ → ℤ) :
    genOut (mkGenState "1" (scenarioATrack t0) 1000) o1 o2 ot 10 = none ∧
    isEndOfPath (genRun (mkGenState "1" (scenarioATrack t0) 1000) o1 o2 ot 10) = false ∧
    isEndOfPath (genRun (mkGenState "1" (scenarioATrack t0) 1000) o1 o2 ot 11) = true := by
  obtain ⟨hc, hn, hs, ht, hg⟩ := scenarioA_after_ten t0 o1 o2 ot
  have hlen : (genRun (mkGenState "1" (scenarioATrack t0) 1000) o1 o2 ot 10).gpx.length = 2 := by
    rw [hg]
    rfl
  have hend10 : isEndOfPath (genRun (mkGenState "1" (scenarioATrack t0) 1000) o1 o2 ot 10) =
      false := by
    simp [isEndOfPath, hs, ht]
  have hadv := advance_of_past_end
    (genRun (mkGenState "1" (scenarioATrack t0) 1000) o1 o2 ot 10)
    (by rw [hs, ht]; norm_num)
    (by rw [hn, hlen])
  have hend11 : isEndOfPath (advanceToNextStepOrSegment
      (genRun (mkGenState "1" (scenarioATrack t0) 1000) o1 o2 ot 10)) = true := by
    rw [hadv]
    simp [isEndOfPath, hn, hs, ht, hlen]
  have hpair := generateNext_of_end
    (genRun (mkGenState "1" (scenarioATrack t0) 1000) o1 o2 ot 10) (o1 10) (o2 10) (ot 10) hend11
  have hfst : (generateNextGpsData (genRun (mkGenState "1" (scenarioATrack t0) 1000) o1 o2 ot 10)
      (o1 10) (o2 10) (ot 10)).1 = none := by
    rw [hpair]
  have hsnd : (generateNextGpsData (genRun (mkGenState "1" (scenarioATrack t0) 1000) o1 o2 ot 10)
      (o1 10) (o2 10) (ot 10)).2 =
      advanceToNextStepOrSegment (genRun (mkGenState "1" (scenarioATrack t0) 1000) o1 o2 ot 10) := by
    rw [hpair]
  refine ⟨?_, hend10, ?_⟩
  · rw [genOut_eq]
    exact hfst
  · have hrun11 : genRun (mkGenState "1" (scenarioATrack t0) 1000) o1 o2 ot 11 =
        (generateNextGpsData (genRun (mkGenState "1" (scenarioATrack t0) 1000) o1 o2 ot 10)
          (o1 10) (o2 10) (ot 10)).2 := genRun_succ _ o1 o2 ot 10
    rw [hrun11, hsnd]
    exact hend11

end GpsDataGenerator

/-- C3: for the Scenario A track (two waypoints, timestamps 10 s apart),
sampling interval 1000 ms, the interpolator computes
totalStepsInSegment = 10 for the first segment, the first ten next() calls
are all non-terminal, the eleventh call is the first terminal one, and
isEndOfPath becomes true exactly with that eleventh call — all of this for
every choice of the random and clock oracles. -/
theorem scenario_a_ten_steps (t0 : ℤ) (o1 o2 : ℕ → ℝ) (ot : ℕ → ℤ) :
    (GpsDataGenerator.mkGenState "1" (scenarioATrack t0) 1000).total = 10 ∧
    ((List.range 10).all fun k =>
      (GpsDataGenerator.genOut (GpsDataGenerator.mkGenState "1" (scenarioATrack t0) 1000)
        o1 o2 ot k).isSome) = true ∧
    GpsDataGenerator.genOut (GpsDataGenerator.mkGenState "1" (scenarioATrack t0) 1000)
      o1 o2 ot 10 = none ∧
    GpsDataGenerator.isEndOfPath (GpsDataGenerator.genRun
      (GpsDataGenerator.mkGenState "1" (scenarioATrack t0) 1000) o1 o2 ot 10) = false ∧
    GpsDataGenerator.isEndOfPath (GpsDataGenerator.genRun
      (GpsDataGenerator.mkGenState "1" (scenarioATrack t0) 1000) o1 o2 ot 11) = true := by
  obtain ⟨e1, e2, e3⟩ := GpsDataGenerator.scenarioA_end t0 o1 o2 ot
  refine ⟨by rw [GpsDataGenerator.scenarioA_init], ?_, e1, e2, e3⟩
  rw [List.all_eq_true]
  intro x hx
  have hx9 : x ≤ 9 := by
    have hxr := List.mem_range.mp hx
    omega
  exact GpsDataGenerator.scenarioA_out_some t0 o1 o2 ot x hx9

/-- Outcome oracle for one awaited api-client call: the promise resolves
(ok) or rejects (threw). -/
inductive ApiOutcome where
  | ok : ApiOutcome
  | threw : ApiOutcome
deriving DecidableEq

/-- Result reported by EmulatorInstance.start. -/
inductive StartResult where
  | ignored : StartResult
  | started : StartResult
  | failed : StartResult
deriving DecidableEq

/-- Result reported by EmulatorInstance.stop. -/
inductive StopResult where
  | ignored : StopResult
  | stopped : StopResult
  | failed : StopResult
deriving DecidableEq

/-- Identity of one of the two periodic producers. -/
inductive TimerKind where
  | generator : TimerKind
  | sender : TimerKind
deriving DecidableEq

/-- Per-vehicle controller state (src/src/EmulatorInstance.ts).  The two
NodeJS interval handles are modelled by the booleans genTimer and
sendTimer (handle present or undefined); the api client is externalized
through ApiOutcome oracles on each transition; Config.EMULATOR_INTERVAL_MS
is 1000 (src/src/config/Config.ts). -/
structure EmuState where
  mdn : String
  gpx : List GpxTrackPoint
  gen : GenState
  buffer : List GpsInformation
  onTime : Option ℤ
  genTimer : Bool
  sendTimer : Bool
  isRunning : Bool
  isEngineOn : Bool

namespace EmulatorInstance

/-- Config.EMULATOR_INTERVAL_MS. -/
def EMULATOR_INTERVAL_MS : ℤ := 1000

/-- The EmulatorInstance constructor after its generator construction has
succeeded (it throws for fewer than 2 waypoints, like the generator). -/
noncomputable def initEmu (vehicleId : String) (gpx : List GpxTrackPoint) : EmuState :=
  { mdn := vehicleId, gpx := gpx,
    gen := GpsDataGenerator.mkGenState vehicleId gpx EMULATOR_INTERVAL_MS,
    buffer := [], onTime := none, genTimer := false, sendTimer := false,
    isRunning := false, isEngineOn := false }

/-- EmulatorInstance.stopIntervals (lines 243-254): clears whichever of the
two interval handles is set and reports the performed cancellations. -/
def stopIntervals (s : EmuState) : EmuState × List TimerKind :=
  let p1 : EmuState × List TimerKind :=
    if s.genTimer then ({ s with genTimer := false }, [TimerKind.generator]) else (s, [])
  let p2 : EmuState × List TimerKind :=
    if p1.1.sendTimer then ({ p1.1 with sendTimer := false }, [TimerKind.sender])
    else (p1.1, [])
  (p2.1, p1.2 ++ p2.2)

/-- EmulatorInstance.startIntervals (lines 209-238): a no-op when either
interval is already active, otherwise schedules both producers. -/
def startIntervals (s : EmuState) : EmuState :=
  if s.genTimer || s.sendTimer then s
  else { s with genTimer := true, sendTimer := true }

/-- EmulatorInstance.hardStop (lines 189-204): halt producers, clear all
trip state and replace the generator with a fresh one. -/
noncomputable def hardStop (s : EmuState) : EmuState × List TimerKind :=
  let p := stopIntervals s
  let s1 :=
    { p.1 with
      isRunning := false, isEngineOn := false, onTime := none,
      buffer := ([] : List GpsInformation),
      gen := GpsDataGenerator.mkGenState p.1.mdn p.1.gpx EMULATOR_INTERVAL_MS }
  (s1, p.2)

/-- EmulatorInstance.start (lines 60-108).  now is the Date drawn when
stamping a fresh trip start; onOutcome is the sendOnRequest oracle.
getCurrentGpsInfo is total, so the defensive null guard of the source is
never taken.  A rejecting send hard-resets and propagates (failed). -/
noncomputable def start (s : EmuState) (now : ℤ) (onOutcome : ApiOutcome) :
    EmuState × StartResult × List TimerKind :=
  if s.isRunning then (s, StartResult.ignored, [])
  else
    let s1 := if s.onTime = none then { s with onTime := some now } else s
    match onOutcome with
    | ApiOutcome.threw =>
        let p := hardStop s1
        (p.1, StartResult.failed, p.2)
    | ApiOutcome.ok =>
        let s2 := { s1 with isEngineOn := true, isRunning := true }
        (startIntervals s2, StartResult.started, [])

/-- EmulatorInstance.stop (lines 116-156).  cycleOutcome is the oracle of
the final buffer flush (taken only when the buffer is nonempty),
offOutcome the oracle of sendOffRequest.  In every non-ignored path the
producers are halted, isRunning is cleared first and isEngineOn is cleared
even when a send rejects; onTime and the generator are left untouched. -/
def stop (s : EmuState) (cycleOutcome offOutcome : ApiOutcome) :
    EmuState × StopResult × List TimerKind :=
  if s.isEngineOn = false then (s, StopResult.ignored, [])
  else
    let p := stopIntervals s
    let s1 := { p.1 with isRunning := false }
    if s1.buffer.isEmpty then
      match offOutcome with
      | ApiOutcome.threw => ({ s1 with isEngineOn := false }, StopResult.failed, p.2)
      | ApiOutcome.ok => ({ s1 with isEngineOn := false }, StopResult.stopped, p.2)
    else
      match cycleOutcome with
      | ApiOutcome.threw => ({ s1 with isEngineOn := false }, StopResult.failed, p.2)
      | ApiOutcome.ok =>
          let s2 := { s1 with buffer := [] }
          match offOutcome with
          | ApiOutcome.threw => ({ s2 with isEngineOn := false }, StopResult.failed, p.2)
          | ApiOutcome.ok => ({ s2 with isEngineOn := false }, StopResult.stopped, p.2)

/-- EmulatorInstance.sendBufferedGpsData (lines 260-290): drains the buffer
by swapping it out before the send; a dispatch failure is caught and
logged, so the state change does not depend on the network outcome. -/
def sendBufferedGpsData (s : EmuState) : EmuState :=
  if s.buffer.isEmpty then s else { s with buffer := [] }

/-- EmulatorInstance.endTripNormally (lines 162-183): halt producers, do a
final flush, replace the generator, clear the trip start and the engine
flag.  No trip-end message is sent. -/
noncomputable def endTripNormally (s : EmuState) : EmuState × List TimerKind :=
  let p := stopIntervals s
  let s1 := { p.1 with isRunning := false }
  let s2 := sendBufferedGpsData s1
  let s3 :=
    { s2 with
      gen := GpsDataGenerator.mkGenState s2.mdn s2.gpx EMULATOR_INTERVAL_MS,
      onTime := none, isEngineOn := false }
  (s3, p.2)

/-- The sampler interval callback (lines 218-230): generate one sample into
the staging buffer, or detect end of track and run the normal-end path
(which first stops the intervals again). -/
noncomputable def samplerTick (s : EmuState) (r1 r2 : ℝ) (t : ℤ) :
    EmuState × List TimerKind :=
  match GpsDataGenerator.generateNextGpsData s.gen r1 r2 t with
  | (some d, gNew) => ({ s with gen := gNew, buffer := s.buffer ++ [d] }, [])
  | (none, gNew) =>
      let s1 := { s with gen := gNew }
      let p := stopIntervals s1
      let q := endTripNormally p.1
      (q.1, p.2 ++ q.2)

/-- The dispatcher interval callback (lines 233-235). -/
def dispatcherTick (s : EmuState) : EmuState :=
  sendBufferedGpsData s

end EmulatorInstance

namespace EmulatorInstance

/-- stopIntervals always leaves a state with both interval handles
cleared and touches nothing else. -/
lemma stopIntervals_fst (s : EmuState) :
    (stopIntervals s).1 = { s with genTimer := false, sendTimer := false } := by
  cases s with
  | mk mdn gpx gen buffer onTime genT sendT run eng =>
      unfold stopIntervals
      cases genT <;> cases sendT <;> simp

/-- Cancelling with both handles already cleared is a silent no-op: no
cancel effects and no state change. -/
lemma stopIntervals_of_off (s : EmuState) (h1 : s.genTimer = false)
    (h2 : s.sendTimer = false) : stopIntervals s = (s, []) := by
  cases s with
  | mk mdn gpx gen buffer onTime genT sendT run eng =>
      unfold stopIntervals
      dsimp only at h1 h2
      subst h1
      subst h2
      simp

@[simp] lemma sendBuffered_genTimer (s : EmuState) :
    (sendBufferedGpsData s).genTimer = s.genTimer := by
  unfold sendBufferedGpsData
  split <;> rfl

@[simp] lemma sendBuffered_sendTimer (s : EmuState) :
    (sendBufferedGpsData s).sendTimer = s.sendTimer := by
  unfold sendBufferedGpsData
  split <;> rfl

@[simp] lemma sendBuffered_isRunning (s : EmuState) :
    (sendBufferedGpsData s).isRunning = s.isRunning := by
  unfold sendBufferedGpsData
  split <;> rfl

@[simp] lemma sendBuffered_isEngineOn (s : EmuState) :
    (sendBufferedGpsData s).isEngineOn = s.isEngineOn := by
  unfold sendBufferedGpsData
  split <;> rfl

/-- The fields of the hard-stopped state. -/
lemma hardStop_fst (s : EmuState) :
    (hardStop s).1.genTimer = false ∧ (hardStop s).1.sendTimer = false ∧
    (hardStop s).1.isRunning = false ∧ (hardStop s).1.isEngineOn = false ∧
    (hardStop s).1.onTime = none ∧ (hardStop s).1.buffer = [] := by
  unfold hardStop
  simp [stopIntervals_fst]

/-- The fields of the normally-ended state. -/
lemma endTrip_fst (s : EmuState) :
    (endTripNormally s).1.genTimer = false ∧ (endTripNormally s).1.sendTimer = false ∧
    (endTripNormally s).1.isRunning = false ∧ (endTripNormally s).1.isEngineOn = false ∧
    (endTripNormally s).1.onTime = none := by
  unfold endTripNormally
  simp [stopIntervals_fst]

/-- Fields of the stopped state preserved or written by a non-ignored
stop: trip-start time and generator untouched, producers halted, engine
marked off, both handles cleared. -/
lemma stop_fields (s : EmuState) (co oo : ApiOutcome) (h : s.isEngineOn = true) :
    (stop s co oo).1.onTime = s.onTime ∧
    (stop s co oo).1.gen = s.gen ∧
    (stop s co oo).1.isRunning = false ∧
    (stop s co oo).1.isEngineOn = false ∧
    (stop s co oo).1.genTimer = false ∧
    (stop s co oo).1.sendTimer = false := by
  unfold stop
  rw [if_neg (by simp [h])]
  dsimp only
  simp only [stopIntervals_fst]
  split
  · split <;> simp
  · split
    · simp
    · split <;> simp

/-- A stop on an engine-off state is an ignored no-op with no cancel
effects. -/
lemma stop_of_engine_off (s : EmuState) (co oo : ApiOutcome) (h : s.isEngineOn = false) :
    stop s co oo = (s, StopResult.ignored, []) := by
  unfold stop
  rw [if_pos h]

/-- The cancel effects of hardStop and endTripNormally are exactly those
of their stopIntervals call. -/
lemma hardStop_snd (s : EmuState) : (hardStop s).2 = (stopIntervals s).2 := rfl

lemma endTrip_snd (s : EmuState) : (endTripNormally s).2 = (stopIntervals s).2 := rfl

end EmulatorInstance

/-- C8: cancellation of the two periodic producers is idempotent.  After
any halting path (stop with the engine on, end-of-trip, hardStop) both
interval handles are cleared; running the cancellation routine - or a
whole second halting path - on such a state cancels nothing further,
changes no state and is total (no error), for every prior state and every
network outcome. -/
theorem interval_cancellation_idempotent (s : EmuState) (co oo : ApiOutcome) :
    ((EmulatorInstance.hardStop s).1.genTimer = false ∧
      (EmulatorInstance.hardStop s).1.sendTimer = false) ∧
    ((EmulatorInstance.endTripNormally s).1.genTimer = false ∧
      (EmulatorInstance.endTripNormally s).1.sendTimer = false) ∧
    ((EmulatorInstance.stop { s with isEngineOn := true } co oo).1.genTimer = false ∧
      (EmulatorInstance.stop { s with isEngineOn := true } co oo).1.sendTimer = false) ∧
    EmulatorInstance.stopIntervals (EmulatorInstance.hardStop s).1 =
      ((EmulatorInstance.hardStop s).1, []) ∧
    EmulatorInstance.stopIntervals (EmulatorInstance.endTripNormally s).1 =
      ((EmulatorInstance.endTripNormally s).1, []) ∧
    EmulatorInstance.stopIntervals (EmulatorInstance.stop { s with isEngineOn := true } co oo).1 =
      ((EmulatorInstance.stop { s with isEngineOn := true } co oo).1, []) ∧
    (EmulatorInstance.hardStop (EmulatorInstance.hardStop s).1).2 = [] ∧
    (EmulatorInstance.endTripNormally (EmulatorInstance.hardStop s).1).2 = [] ∧
    (EmulatorInstance.stop (EmulatorInstance.hardStop s).1 co oo).2.2 = [] := by
  obtain ⟨h1, h2, h3, h4, h5, h6⟩ := EmulatorInstance.hardStop_fst s
  obtain ⟨e1, e2, e3, e4, e5⟩ := EmulatorInstance.endTrip_fst s
  obtain ⟨f1, f2, f3, f4, f5, f6⟩ := EmulatorInstance.stop_fields
    { s with isEngineOn := true } co oo rfl
  have hidem := EmulatorInstance.stopIntervals_of_off (EmulatorInstance.hardStop s).1 h1 h2
  refine ⟨⟨h1, h2⟩, ⟨e1, e2⟩, ⟨f5, f6⟩, hidem,
    EmulatorInstance.stopIntervals_of_off _ e1 e2,
    EmulatorInstance.stopIntervals_of_off _ f5 f6, ?_, ?_, ?_⟩
  · rw [EmulatorInstance.hardStop_snd, hidem]
  · rw [EmulatorInstance.endTrip_snd, hidem]
  · rw [EmulatorInstance.stop_of_engine_off _ co oo h4]

namespace EmulatorInstance

/-- A start on a paused controller (producers stopped, trip-start time
already recorded) with a resolving trip-start send: the recorded time is
kept and the generator is not touched. -/
lemma start_resume (s : EmuState) (now T : ℤ) (hrun : s.isRunning = false)
    (ht : s.onTime = some T) :
    start s now ApiOutcome.ok =
      (startIntervals { s with isEngineOn := true, isRunning := true },
        StartResult.started, []) := by
  unfold start
  rw [if_neg (by simp [hrun])]
  dsimp only
  rw [if_neg (by simp [ht])]

/-- startIntervals with both handles clear schedules both producers. -/
lemma startIntervals_of_off (s : EmuState) (h1 : s.genTimer = false)
    (h2 : s.sendTimer = false) :
    startIntervals s = { s with genTimer := true, sendTimer := true } := by
  unfold startIntervals
  rw [if_neg (by simp [h1, h2])]

@[simp] lemma startIntervals_isRunning (s : EmuState) :
    (startIntervals s).isRunning = s.isRunning := by
  unfold startIntervals
  split <;> rfl

@[simp] lemma startIntervals_isEngineOn (s : EmuState) :
    (startIntervals s).isEngineOn = s.isEngineOn := by
  unfold startIntervals
  split <;> rfl

@[simp] lemma startIntervals_onTime (s : EmuState) :
    (startIntervals s).onTime = s.onTime := by
  unfold startIntervals
  split <;> rfl

@[simp] lemma startIntervals_gen (s : EmuState) :
    (startIntervals s).gen = s.gen := by
  unfold startIntervals
  split <;> rfl

end EmulatorInstance

/-- C1: after a successful start (engine on, trip-start time recorded as
T) followed by a stop with any network outcomes, a subsequent successful
start keeps the original trip-start timestamp T and leaves the
GpsDataGenerator exactly as it was when stop was called (segment indices,
step counter and cumulative distance included), rather than resetting to
the first waypoint. -/
theorem resume_preserves_trip_state (s : EmuState) (T now : ℤ) (co oo : ApiOutcome)
    (h1 : s.isEngineOn = true) (h2 : s.onTime = some T) :
    (EmulatorInstance.stop s co oo).1.gen = s.gen ∧
    (EmulatorInstance.stop s co oo).1.onTime = some T ∧
    (EmulatorInstance.start (EmulatorInstance.stop s co oo).1 now ApiOutcome.ok).1.onTime =
      some T ∧
    (EmulatorInstance.start (EmulatorInstance.stop s co oo).1 now ApiOutcome.ok).1.gen =
      s.gen ∧
    (EmulatorInstance.start (EmulatorInstance.stop s co oo).1 now
      ApiOutcome.ok).2.1 = StartResult.started ∧
    (EmulatorInstance.start (EmulatorInstance.stop s co oo).1 now
      ApiOutcome.ok).1.isRunning = true := by
  obtain ⟨f1, f2, f3, f4, f5, f6⟩ := EmulatorInstance.stop_fields s co oo h1
  have hstart := EmulatorInstance.start_resume (EmulatorInstance.stop s co oo).1 now T f3
    (f1.trans h2)
  have hsi := EmulatorInstance.startIntervals_of_off
    { (EmulatorInstance.stop s co oo).1 with isEngineOn := true, isRunning := true }
    f5 f6
  rw [hstart, hsi]
  refine ⟨f2, f1.trans h2, ?_, ?_, rfl, rfl⟩
  · show (EmulatorInstance.stop s co oo).1.onTime = some T
    exact f1.trans h2
  · exact f2

/-- Track used for the C1 witness. -/
noncomputable def c1Track : List GpxTrackPoint :=
  [⟨37.5, 127.0, none, some 0⟩, ⟨37.5, 127.01, none, some 10000⟩]

/-- A controller mid-trip: engine on, producers running, trip started at
time 42. -/
noncomputable def c1State : EmuState :=
  { mdn := "1", gpx := c1Track,
    gen := GpsDataGenerator.mkGenState "1" c1Track 1000,
    buffer := [], onTime := some 42, genTimer := true, sendTimer := true,
    isRunning := true, isEngineOn := true }

/-- Witness for C1 at a concrete mid-trip controller with resolving
sends. -/
theorem resume_preserves_trip_state_witness :
    c1State.isEngineOn = true ∧ c1State.onTime = some 42 ∧
    ((EmulatorInstance.stop c1State ApiOutcome.ok ApiOutcome.ok).1.gen = c1State.gen ∧
      (EmulatorInstance.stop c1State ApiOutcome.ok ApiOutcome.ok).1.onTime = some 42 ∧
      (EmulatorInstance.start (EmulatorInstance.stop c1State ApiOutcome.ok ApiOutcome.ok).1 99
        ApiOutcome.ok).1.onTime = some 42 ∧
      (EmulatorInstance.start (EmulatorInstance.stop c1State ApiOutcome.ok ApiOutcome.ok).1 99
        ApiOutcome.ok).1.gen = c1State.gen ∧
      (EmulatorInstance.start (EmulatorInstance.stop c1State ApiOutcome.ok ApiOutcome.ok).1 99
        ApiOutcome.ok).2.1 = StartResult.started ∧
      (EmulatorInstance.start (EmulatorInstance.stop c1State ApiOutcome.ok ApiOutcome.ok).1 99
        ApiOutcome.ok).1.isRunning = true) :=
  ⟨rfl, rfl, resume_preserves_trip_state c1State 42 99 ApiOutcome.ok ApiOutcome.ok rfl rfl⟩

/-- Controller states reachable from construction by the public
operations and the two interval callbacks, under all oracle values. -/
inductive EmuReach : EmuState → Prop where
  | init (vehicleId : String) (gpx : List GpxTrackPoint) : 2 ≤ gpx.length →
      EmuReach (EmulatorInstance.initEmu vehicleId gpx)
  | startOp (s : EmuState) (now : ℤ) (o : ApiOutcome) : EmuReach s →
      EmuReach (EmulatorInstance.start s now o).1
  | stopOp (s : EmuState) (co oo : ApiOutcome) : EmuReach s →
      EmuReach (EmulatorInstance.stop s co oo).1
  | hardStopOp (s : EmuState) : EmuReach s →
      EmuReach (EmulatorInstance.hardStop s).1
  | endTripOp (s : EmuState) : EmuReach s →
      EmuReach (EmulatorInstance.endTripNormally s).1
  | samplerOp (s : EmuState) (r1 r2 : ℝ) (t : ℤ) : EmuReach s →
      EmuReach (EmulatorInstance.samplerTick s r1 r2 t).1
  | dispatcherOp (s : EmuState) : EmuReach s →
      EmuReach (EmulatorInstance.dispatcherTick s)

namespace EmulatorInstance

/-- The running-implies-engine-on implication survives a start. -/
lemma start_inv (s : EmuState) (now : ℤ) (o : ApiOutcome)
    (ih : s.isRunning = true → s.isEngineOn = true) :
    (start s now o).1.isRunning = true → (start s now o).1.isEngineOn = true := by
  unfold start
  split
  · exact ih
  · dsimp only
    match o with
    | ApiOutcome.threw =>
        intro hcon
        rw [(hardStop_fst _).2.2.1] at hcon
        cases hcon
    | ApiOutcome.ok =>
        intro _
        rw [startIntervals_isEngineOn]

lemma stop_inv (s : EmuState) (co oo : ApiOutcome)
    (ih : s.isRunning = true → s.isEngineOn = true) :
    (stop s co oo).1.isRunning = true → (stop s co oo).1.isEngineOn = true := by
  by_cases h : s.isEngineOn = true
  · intro hcon
    rw [(stop_fields s co oo h).2.2.1] at hcon
    cases hcon
  · rw [stop_of_engine_off s co oo (by revert h; cases s.isEngineOn <;> simp)]
    exact ih

lemma hardStop_inv (s : EmuState) :
    (hardStop s).1.isRunning = true → (hardStop s).1.isEngineOn = true := by
  intro hcon
  rw [(hardStop_fst s).2.2.1] at hcon
  cases hcon

lemma endTrip_inv (s : EmuState) :
    (endTripNormally s).1.isRunning = true → (endTripNormally s).1.isEngineOn = true := by
  intro hcon
  rw [(endTrip_fst s).2.2.1] at hcon
  cases hcon

lemma samplerTick_inv (s : EmuState) (r1 r2 : ℝ) (t : ℤ)
    (ih : s.isRunning = true → s.isEngineOn = true) :
    (samplerTick s r1 r2 t).1.isRunning = true →
      (samplerTick s r1 r2 t).1.isEngineOn = true := by
  unfold samplerTick
  split
  · exact ih
  · dsimp only
    exact endTrip_inv _

lemma dispatcherTick_inv (s : EmuState)
    (ih : s.isRunning = true → s.isEngineOn = true) :
    (dispatcherTick s).isRunning = true → (dispatcherTick s).isEngineOn = true := by
  unfold dispatcherTick
  rw [sendBuffered_isRunning, sendBuffered_isEngineOn]
  exact ih

end EmulatorInstance

/-- C9: at every reachable controller state - hence at every
public-operation boundary - an active running flag implies the engine-on
flag: the producers-active state is a sub-state of ignition-on. -/
theorem running_implies_engine_on (s : EmuState) (h : EmuReach s)
    (hr : s.isRunning = true) : s.isEngineOn = true := by
  induction h with
  | init vehicleId gpx _ => cases hr
  | startOp s now o _ ih => exact EmulatorInstance.start_inv s now o ih hr
  | stopOp s co oo _ ih => exact EmulatorInstance.stop_inv s co oo ih hr
  | hardStopOp s _ _ => exact EmulatorInstance.hardStop_inv s hr
  | endTripOp s _ _ => exact EmulatorInstance.endTrip_inv s hr
  | samplerOp s r1 r2 t _ ih => exact EmulatorInstance.samplerTick_inv s r1 r2 t ih hr
  | dispatcherOp s _ ih => exact EmulatorInstance.dispatcherTick_inv s ih hr

/-- Track used for the C9 witness. -/
noncomputable def c9Track : List GpxTrackPoint :=
  [⟨37.5, 127.0, none, some 0⟩, ⟨37.5, 127.01, none, some 5000⟩]

/-- A freshly constructed controller successfully started once. -/
noncomputable def c9State : EmuState :=
  (EmulatorInstance.start (EmulatorInstance.initEmu "9" c9Track) 7 ApiOutcome.ok).1

/-- Witness for C9 at the concrete controller that just started. -/
theorem running_implies_engine_on_witness :
    EmuReach c9State ∧ c9State.isRunning = true ∧ c9State.isEngineOn = true :=
  ⟨EmuReach.startOp _ 7 ApiOutcome.ok (EmuReach.init "9" c9Track (by decide)),
    rfl,
    running_implies_engine_on c9State
      (EmuReach.startOp _ 7 ApiOutcome.ok (EmuReach.init "9" c9Track (by decide))) rfl⟩

namespace ServerApiClient

/-- ServerApiClient.sendOnRequest (src/src/api/ServerApiClient.ts lines
28-62): posts the trip-start message and, on a transport failure, catches
the error and resolves with a null payload instead of rejecting.  httpOk
is the transport oracle, respMdn the payload of a successful response. -/
def sendOnRequestPayload (httpOk : Bool) (respMdn : ℤ) : Option ℤ :=
  if httpOk then some respMdn else none

/-- The awaited outcome EmulatorInstance.start observes from the concrete
client: the promise resolves whether or not the HTTP call failed. -/
def sendOnRequestOutcome (httpOk : Bool) : ApiOutcome := ApiOutcome.ok

end ServerApiClient

/-- EmulatorInstance.start as driven by the concrete ServerApiClient: the
outcome fed into start is whatever the client produces for transport
state httpOk. -/
noncomputable def startViaServerApiClient (s : EmuState) (now : ℤ) (httpOk : Bool) :
    EmuState × StartResult × List TimerKind :=
  EmulatorInstance.start s now (ServerApiClient.sendOnRequestOutcome httpOk)

/-- Track used for the C2 failing input. -/
noncomputable def c2Track : List GpxTrackPoint :=
  [⟨37.5, 127.0, none, some 0⟩, ⟨37.5, 127.01, none, some 10000⟩]

/-- C2, evaluated at the failing input: start() on a fresh controller
while the HTTP trip-start call fails (httpOk = false, so the concrete
client catches the error and resolves with a null payload, last
conjunct).  The claimed behavior would be a hard reset plus a propagated
error; the code instead reports a successful start, marks the engine on
and running, schedules both producers and keeps the stamped trip-start
time - a fully-started controller after a failed trip-start send. -/
theorem trip_start_failure_not_propagated :
    (startViaServerApiClient (EmulatorInstance.initEmu "1" c2Track) 0 false).2.1 =
      StartResult.started ∧
    (startViaServerApiClient (EmulatorInstance.initEmu "1" c2Track) 0 false).1.isRunning =
      true ∧
    (startViaServerApiClient (EmulatorInstance.initEmu "1" c2Track) 0 false).1.isEngineOn =
      true ∧
    (startViaServerApiClient (EmulatorInstance.initEmu "1" c2Track) 0 false).1.genTimer =
      true ∧
    (startViaServerApiClient (EmulatorInstance.initEmu "1" c2Track) 0 false).1.sendTimer =
      true ∧
    (startViaServerApiClient (EmulatorInstance.initEmu "1" c2Track) 0 false).1.onTime =
      some 0 ∧
    ServerApiClient.sendOnRequestPayload false 0 = none :=
  ⟨rfl, rfl, rfl, rfl, rfl, rfl, rfl⟩

/-- Application configuration (src/src/config/Config.ts). -/
structure Config where
  vehicleIds : List String
  serverEndpoint : String
  gpxFilePath : String

/-- Fleet registry state (App, second chunk of src/src/domain/vo/Gps.ts). -/
structure AppState where
  emulators : List EmuState
  gpxTrackPoints : List GpxTrackPoint
  isInitialized : Bool

/-- The App constructor field initializers. -/
def appInit : AppState :=
  { emulators := [], gpxTrackPoints := [], isInitialized := false }

namespace App

/-- App.initializeEmulators (second chunk of src/src/domain/vo/Gps.ts,
lines 59-108).  parsed is the oracle for the awaited GpxParser result.
A second call while initialized returns early; otherwise the track is
stored, the length and first-vehicle-id guards run, and exactly one
EmulatorInstance for vehicleIds[0] is pushed.  Any raised error leaves
isInitialized false and propagates. -/
noncomputable def initializeEmulators (cfg : Config)
    (parsed : Except String (List GpxTrackPoint)) (s : AppState) :
    AppState × Except String Unit :=
  if s.isInitialized then (s, Except.ok ())
  else
    match parsed with
    | Except.error e => ({ s with isInitialized := false }, Except.error e)
    | Except.ok pts =>
        let s1 := { s with gpxTrackPoints := pts }
        if pts.length < 2 then
          ({ s1 with isInitialized := false }, Except.error "minTrackPoints")
        else
          match cfg.vehicleIds.head? with
          | none => ({ s1 with isInitialized := false }, Except.error "noVehicleIds")
          | some vehicleId =>
              if vehicleId = "" then
                ({ s1 with isInitialized := false }, Except.error "noVehicleIds")
              else
                ({ s1 with
                    emulators := s1.emulators ++ [EmulatorInstance.initEmu vehicleId pts],
                    isInitialized := true }, Except.ok ())

end App

/-- C10: for every configuration with a non-empty vehicle-id list, a
successful initializeEmulators() on a fresh App creates exactly one
EmulatorInstance, for the first configured vehicle id only (all other
configured ids are ignored), and a second call while already initialized
is a no-op returning success and adding no further controllers. -/
theorem initialize_emulators_single_instance (cfg : Config)
    (parsed parsed2 : Except String (List GpxTrackPoint))
    (hne : cfg.vehicleIds ≠ [])
    (hok : (App.initializeEmulators cfg parsed appInit).2 = Except.ok ()) :
    (App.initializeEmulators cfg parsed appInit).1.emulators.length = 1 ∧
    ((App.initializeEmulators cfg parsed appInit).1.emulators.head?.map EmuState.mdn) =
      cfg.vehicleIds.head? ∧
    (App.initializeEmulators cfg parsed appInit).1.isInitialized = true ∧
    App.initializeEmulators cfg parsed2 (App.initializeEmulators cfg parsed appInit).1 =
      ((App.initializeEmulators cfg parsed appInit).1, Except.ok ()) := by
  unfold App.initializeEmulators at hok ⊢
  rw [if_neg (by simp [appInit])] at hok ⊢
  rcases parsed with e | pts
  · simp at hok
  · dsimp only at hok ⊢
    by_cases hlen : pts.length < 2
    · rw [if_pos hlen] at hok
      simp at hok
    · rw [if_neg hlen] at hok ⊢
      rcases hhead : cfg.vehicleIds.head? with _ | vid
      · rw [hhead] at hok
        simp at hok
      · rw [hhead] at hok
        dsimp only at hok ⊢
        by_cases hvid : vid = ""
        · rw [if_pos hvid] at hok
          simp at hok
        · rw [if_neg hvid] at hok ⊢
          refine ⟨by simp [appInit], by simp [appInit, EmulatorInstance.initEmu], rfl, ?_⟩
          rw [if_pos rfl]

/-- Track used for the C10 witness. -/
noncomputable def c10Track : List GpxTrackPoint :=
  [⟨37.55, 126.98, none, some 0⟩, ⟨37.551, 126.99, none, some 60000⟩]

/-- Concrete configuration with several vehicle ids. -/
def c10Config : Config :=
  { vehicleIds := ["151", "20", "19"], serverEndpoint := "http://collector",
    gpxFilePath := "routes/namsan_loop.gpx" }

/-- Witness for C10: a successful initialization over a concrete
three-vehicle configuration yields exactly one controller, for id 151. -/
theorem initialize_emulators_single_instance_witness :
    c10Config.vehicleIds ≠ [] ∧
    (App.initializeEmulators c10Config (Except.ok c10Track) appInit).2 = Except.ok () ∧
    ((App.initializeEmulators c10Config (Except.ok c10Track) appInit).1.emulators.length = 1 ∧
      ((App.initializeEmulators c10Config (Except.ok c10Track)
          appInit).1.emulators.head?.map EmuState.mdn) = c10Config.vehicleIds.head? ∧
      (App.initializeEmulators c10Config (Except.ok c10Track) appInit).1.isInitialized = true ∧
      App.initializeEmulators c10Config (Except.error "down")
          (App.initializeEmulators c10Config (Except.ok c10Track) appInit).1 =
        ((App.initializeEmulators c10Config (Except.ok c10Track) appInit).1, Except.ok ())) :=
  ⟨by simp [c10Config], rfl,
    initialize_emulators_single_instance c10Config (Except.ok c10Track) (Except.error "down")
      (by simp [c10Config]) rfl⟩
